import Mathlib

/-!
Shallow embedding of the metadata-driven validation engine of the
repository: the metadata model (utils/excel_reader.py), the data-access
layer (utils/db_connector.py) and the constraint validators
(validations/db_validations.py).

Python dictionaries are modelled as insertion-ordered association lists,
Python floats as exact rationals, and the live relational store behind the
data-access layer as an oracle of functions returning Except values (an
exception raised by a primitive corresponds to an error value).
-/

namespace MDV

/-- Validation status strings used in every result record. -/
inductive Status where
  | PASS
  | FAIL
  | ERROR
  deriving DecidableEq, Repr

/-- Python str.upper, adequate for the ASCII strings handled here. -/
def pyUpper (s : String) : String := String.mk (s.toList.map Char.toUpper)

/-- Python truthiness of an optional string: None and the empty string are falsy. -/
def truthyOpt : Option String → Bool
  | none => false
  | some s => !(s == "")

/-- FeedMetadata record (utils/excel_reader.py, dataclass FeedMetadata). -/
structure FeedMetadata where
  modules : String
  feed : String
  feed_list : List String
  field_name : String
  db_name : String
  db_table : String
  data_type : String
  nullable : String
  request : String
  defaultVal : Option String
  enumeration : Option String
  range_bottom : Option String
  range_top : Option String
  mandatory : String
  unique : String
  deriving DecidableEq, Repr

/-- EnumerationMetadata record (utils/excel_reader.py): one allowed value per row. -/
structure EnumerationMetadata where
  enumeration_name : String
  enum_values : String
  deriving DecidableEq, Repr

/-- One column of an actual table schema, as returned by SQLAlchemy
introspection in db_connector.get_table_schema: its name, the string
rendering of its type and its nullable flag. -/
structure SchemaColumn where
  name : String
  colType : String
  nullable : Bool
  deriving DecidableEq, Repr

/-- Shared feed filter used by every validator: when selected_feeds is
truthy (not None and non-empty), keep the records whose feed is listed. -/
def filterFeeds (metadata : List FeedMetadata) (selected_feeds : Option (List String)) :
    List FeedMetadata :=
  match selected_feeds with
  | none => metadata
  | some feeds =>
    if feeds.isEmpty then metadata else metadata.filter (fun m => feeds.contains m.feed)

/-- Grouping key a record contributes to: db_name ++ "." ++ db_table. -/
def tableKey (m : FeedMetadata) : String := m.db_name ++ "." ++ m.db_table

/-- Append a record to its group, preserving first-seen group order
(Python dict insertion order). -/
def insertGrouped (k : String) (m : FeedMetadata) :
    List (String × List FeedMetadata) → List (String × List FeedMetadata)
  | [] => [(k, [m])]
  | (k2, ms) :: rest =>
    if k2 == k then (k2, ms ++ [m]) :: rest
    else (k2, ms) :: insertGrouped k m rest

/-- Group metadata records by table key, as the table_groups dict built by
each grouped validator. -/
def groupByTable (metadata : List FeedMetadata) : List (String × List FeedMetadata) :=
  metadata.foldl (fun gs m => insertGrouped (tableKey m) m gs) []

/-- Helper for splitFirstDot, scanning the key for the first dot. -/
def splitDotAux (acc : List Char) : List Char → String × String
  | [] => (String.mk acc.reverse, "")
  | c :: cs => if c == '.' then (String.mk acc.reverse, String.mk cs) else splitDotAux (c :: acc) cs

/-- Python table_key.split(".", 1): the part before the first dot and the
part after it.  Keys built by tableKey always contain a dot. -/
def splitFirstDot (s : String) : String × String := splitDotAux [] s.toList

/-- Python dict assignment d[k] = v on a string-keyed dict kept as an
insertion-ordered association list. -/
def dictInsert (k : String) (v : α) : List (String × α) → List (String × α)
  | [] => [(k, v)]
  | (k2, v2) :: rest => if k2 == k then (k2, v) :: rest else (k2, v2) :: dictInsert k v rest

/-- Python d.get(k): the value at the first (unique) matching key. -/
def dictGet? (d : List (String × α)) (k : String) : Option α :=
  (d.find? (fun p => p.1 == k)).map (fun p => p.2)

/-- Helper for strContains: does the needle occur in the remaining characters. -/
def substrAux (needle : List Char) : List Char → Bool
  | [] => needle.isEmpty
  | c :: cs => needle.isPrefixOf (c :: cs) || substrAux needle cs

/-- Python substring test (needle in hay). -/
def strContains (hay needle : String) : Bool := substrAux needle.toList hay.toList

/-- The fixed bucket table of db_connector._compare_data_types. -/
def type_mappings : List (String × List String) :=
  [("VARCHAR", ["VARCHAR", "NVARCHAR", "TEXT", "STRING"]),
   ("INTEGER", ["INTEGER", "INT", "BIGINT", "SMALLINT"]),
   ("DECIMAL", ["DECIMAL", "NUMERIC", "FLOAT", "REAL"]),
   ("DATETIME", ["DATETIME", "TIMESTAMP", "DATE", "TIME"]),
   ("BOOLEAN", ["BOOLEAN", "BIT"])]

/-- A type string falls in a bucket when some variant of the bucket is a
substring of it (Python: any(variant in actual_type for variant in variants)). -/
def matchesBucket (t : String) (variants : List String) : Bool :=
  variants.any (fun v => strContains t v)

/-- db_connector._compare_data_types: true when some bucket contains both
type strings, otherwise fall back to raw string equality. -/
def compare_data_types (actual_type expected_type : String) : Bool :=
  if type_mappings.any (fun p => matchesBucket actual_type p.2 && matchesBucket expected_type p.2)
  then true
  else actual_type == expected_type

/-- Oracle interface to the live relational store: the data-access-layer
primitives of db_connector that the validators invoke.  A raised exception
is modelled as an error value carrying the exception message. -/
structure DAL where
  get_table_schema : String → String → Except String (List SchemaColumn)
  check_nullable_constraints : String → String → String → Except String (Option Bool × Int)
  check_unique_constraints : String → String → String → Except String (Int × Int)
  check_range_constraints :
    String → String → String → Option String → Option String → Except String (Option Int × Option Int)
  check_enumeration_constraints : String → String → String → List String → Except String Int
  get_row_count : String → String → Except String Int

/-- The per-actual-column verdict of db_connector.validate_data_types: a
declared expected type is compared after upper-casing both sides, and an
actual column absent from the expected schema maps to False. -/
def typeDecisionFor (expected_schema : List (String × String)) (c : SchemaColumn) : Bool :=
  match dictGet? expected_schema c.name with
  | some expected_type => compare_data_types (pyUpper c.colType) (pyUpper expected_type)
  | none => false

/-- db_connector.validate_data_types: fetch the actual schema, then build a
dict keyed by the ACTUAL schema columns holding each column's verdict.
Declared columns absent from the actual schema produce no entry. -/
def connectorValidateDataTypes (dal : DAL) (db_name table_name : String)
    (expected_schema : List (String × String)) : Except String (List (String × Bool)) :=
  match dal.get_table_schema db_name table_name with
  | .error e => .error e
  | .ok cols =>
    .ok (cols.foldl (fun d c => dictInsert c.name (typeDecisionFor expected_schema c) d) [])

/-- Python repr of a bool inside an f-string. -/
def pyBool (b : Bool) : String := if b then "True" else "False"

/-- Python repr of an optional bool inside an f-string. -/
def pyOptBool : Option Bool → String
  | none => "None"
  | some b => pyBool b

/-- First record's feed of a table group (table_metadata[0].feed). -/
def firstFeed : List FeedMetadata → String
  | [] => ""
  | m :: _ => m.feed

/-- First record's request mode of a table group (table_metadata[0].request). -/
def firstRequest : List FeedMetadata → String
  | [] => ""
  | m :: _ => m.request

/-- One entry of the column_validations list of a data-type result. -/
structure ColumnValidation where
  column_name : String
  expected_type : String
  validation_passed : Bool
  error_message : Option String
  deriving DecidableEq, Repr

/-- Result record of validate_data_types (one per table group). -/
structure DataTypeResult where
  db_name : String
  table_name : String
  feed_name : String
  column_validations : List ColumnValidation
  validation_status : Status
  error_message : Option String
  deriving DecidableEq, Repr

/-- The expected-schema dict of a table group: field name to declared type,
later records overwriting earlier ones (Python dict assignment). -/
def expectedSchemaOf (ms : List FeedMetadata) : List (String × String) :=
  ms.foldl (fun d m => dictInsert m.field_name m.data_type d) []

/-- The column_validations entry built from one (column name, verdict) item
of the connector's result dict; the expected type is looked up in the first
group record declaring the column, defaulting to "Unknown". -/
def mkColumnValidation (ms : List FeedMetadata) (p : String × Bool) : ColumnValidation :=
  { column_name := p.1,
    expected_type :=
      match ms.find? (fun m => m.field_name == p.1) with
      | some m => m.data_type
      | none => "Unknown",
    validation_passed := p.2,
    error_message :=
      if p.2 then none else some ("Data type mismatch for column " ++ p.1) }

/-- Per-group body of DatabaseValidator.validate_data_types, including its
per-group try/except converting a raised exception into an ERROR record. -/
def processDataTypeGroup (dal : DAL) (g : String × List FeedMetadata) : DataTypeResult :=
  let db_name := (splitFirstDot g.1).1
  let table_name := (splitFirstDot g.1).2
  let expected_schema := expectedSchemaOf g.2
  match connectorValidateDataTypes dal db_name table_name expected_schema with
  | .error e =>
    { db_name := db_name, table_name := table_name, feed_name := firstFeed g.2,
      column_validations := [],
      validation_status := .ERROR,
      error_message := some ("Error validating data types: " ++ e) }
  | .ok type_validation_results =>
    { db_name := db_name, table_name := table_name, feed_name := firstFeed g.2,
      column_validations := type_validation_results.map (mkColumnValidation g.2),
      validation_status := if type_validation_results.any (fun p => !p.2) then .FAIL else .PASS,
      error_message := none }

/-- DatabaseValidator.validate_data_types: filter by feed, group by table,
emit one result per group. -/
def validate_data_types (dal : DAL) (metadata : List FeedMetadata)
    (selected_feeds : Option (List String)) : List DataTypeResult :=
  (groupByTable (filterFeeds metadata selected_feeds)).map (processDataTypeGroup dal)

/-- Result record of validate_nullable_constraints (one per metadata record). -/
structure NullableResult where
  db_name : String
  table_name : String
  column_name : String
  feed_name : String
  expected_nullable : String
  expected_mandatory : String
  actual_nullable : Option Bool
  null_count : Int
  validation_status : Status
  error_message : Option String
  deriving DecidableEq, Repr

/-- Per-record body of DatabaseValidator.validate_nullable_constraints. -/
def processNullableMeta (dal : DAL) (m : FeedMetadata) : NullableResult :=
  let base : NullableResult :=
    { db_name := m.db_name, table_name := m.db_table, column_name := m.field_name,
      feed_name := m.feed, expected_nullable := m.nullable, expected_mandatory := m.mandatory,
      actual_nullable := none, null_count := 0, validation_status := .PASS,
      error_message := none }
  match dal.check_nullable_constraints m.db_name m.db_table m.field_name with
  | .error e =>
    { base with validation_status := .ERROR,
                error_message := some ("Error validating nullable constraints: " ++ e) }
  | .ok (actual_nullable, null_count) =>
    let mandatoryBad := pyUpper m.mandatory == "Y" && decide (0 < null_count)
    let expected_nullable_bool := pyUpper m.nullable == "Y"
    let nullableBad := !(actual_nullable == some expected_nullable_bool)
    let msgs :=
      (if mandatoryBad then
        ["Mandatory field has " ++ toString null_count ++ " null values"] else [])
      ++ (if nullableBad then
        ["Nullable setting mismatch: expected " ++ pyBool expected_nullable_bool ++
         ", got " ++ pyOptBool actual_nullable] else [])
    if mandatoryBad || nullableBad then
      { base with actual_nullable := actual_nullable, null_count := null_count,
                  validation_status := .FAIL,
                  error_message := some (String.intercalate "; " msgs) }
    else
      { base with actual_nullable := actual_nullable, null_count := null_count }

/-- DatabaseValidator.validate_nullable_constraints: one result per
(feed-filtered) metadata record; no table grouping. -/
def validate_nullable_constraints (dal : DAL) (metadata : List FeedMetadata)
    (selected_feeds : Option (List String)) : List NullableResult :=
  (filterFeeds metadata selected_feeds).map (processNullableMeta dal)

/-- Result record of validate_unique_constraints (one per unique='Y' record). -/
structure UniqueResult where
  db_name : String
  table_name : String
  column_name : String
  feed_name : String
  expected_unique : String
  total_count : Int
  distinct_count : Int
  duplicate_count : Int
  validation_status : Status
  error_message : Option String
  deriving DecidableEq, Repr

/-- Per-record body of DatabaseValidator.validate_unique_constraints. -/
def processUniqueMeta (dal : DAL) (m : FeedMetadata) : UniqueResult :=
  let base : UniqueResult :=
    { db_name := m.db_name, table_name := m.db_table, column_name := m.field_name,
      feed_name := m.feed, expected_unique := m.unique,
      total_count := 0, distinct_count := 0, duplicate_count := 0,
      validation_status := .PASS, error_message := none }
  match dal.check_unique_constraints m.db_name m.db_table m.field_name with
  | .error e =>
    { base with validation_status := .ERROR,
                error_message := some ("Error validating unique constraints: " ++ e) }
  | .ok (total_count, distinct_count) =>
    let dup := total_count - distinct_count
    if total_count != distinct_count then
      { base with total_count := total_count, distinct_count := distinct_count,
                  duplicate_count := dup, validation_status := .FAIL,
                  error_message := some ("Column should be unique but has " ++
                    toString dup ++ " duplicates") }
    else
      { base with total_count := total_count, distinct_count := distinct_count,
                  duplicate_count := dup }

/-- DatabaseValidator.validate_unique_constraints: keep records with
unique='Y' after feed filtering; one result each. -/
def validate_unique_constraints (dal : DAL) (metadata : List FeedMetadata)
    (selected_feeds : Option (List String)) : List UniqueResult :=
  ((filterFeeds metadata selected_feeds).filter
    (fun m => pyUpper m.unique == "Y")).map (processUniqueMeta dal)

/-- Result record of validate_range_constraints. -/
structure RangeResult where
  db_name : String
  table_name : String
  column_name : String
  feed_name : String
  range_bottom : Option String
  range_top : Option String
  below_range_count : Int
  above_range_count : Int
  validation_status : Status
  error_message : Option String
  deriving DecidableEq, Repr

/-- Per-record body of DatabaseValidator.validate_range_constraints. -/
def processRangeMeta (dal : DAL) (m : FeedMetadata) : RangeResult :=
  let base : RangeResult :=
    { db_name := m.db_name, table_name := m.db_table, column_name := m.field_name,
      feed_name := m.feed, range_bottom := m.range_bottom, range_top := m.range_top,
      below_range_count := 0, above_range_count := 0,
      validation_status := .PASS, error_message := none }
  match dal.check_range_constraints m.db_name m.db_table m.field_name
      m.range_bottom m.range_top with
  | .error e =>
    { base with validation_status := .ERROR,
                error_message := some ("Error validating range constraints: " ++ e) }
  | .ok (below, above) =>
    let b := below.getD 0
    let a := above.getD 0
    if 0 < b + a then
      { base with below_range_count := b, above_range_count := a,
                  validation_status := .FAIL,
                  error_message := some ("Range violations: " ++ toString b ++
                    " below range, " ++ toString a ++ " above range") }
    else
      { base with below_range_count := b, above_range_count := a }

/-- DatabaseValidator.validate_range_constraints: keep records with a truthy
range_bottom or range_top after feed filtering; one result each. -/
def validate_range_constraints (dal : DAL) (metadata : List FeedMetadata)
    (selected_feeds : Option (List String)) : List RangeResult :=
  ((filterFeeds metadata selected_feeds).filter
    (fun m => truthyOpt m.range_bottom || truthyOpt m.range_top)).map (processRangeMeta dal)

/-- Result record of validate_enumeration_constraints. -/
structure EnumResult where
  db_name : String
  table_name : String
  column_name : String
  feed_name : String
  enumeration_name : Option String
  allowed_values : List String
  invalid_count : Int
  validation_status : Status
  error_message : Option String
  deriving DecidableEq, Repr

/-- Append one allowed value under its enumeration name (the enum_lookup
dict of lists built by the enumeration validator). -/
def dictAppendValue (k : String) (v : String) :
    List (String × List String) → List (String × List String)
  | [] => [(k, [v])]
  | (k2, vs) :: rest =>
    if k2 == k then (k2, vs ++ [v]) :: rest else (k2, vs) :: dictAppendValue k v rest

/-- The enum_lookup dict: enumeration name to its list of allowed values,
in first-seen order. -/
def enumLookup (ems : List EnumerationMetadata) : List (String × List String) :=
  ems.foldl (fun d em => dictAppendValue em.enumeration_name em.enum_values d) []

/-- The string used to key the lookup (meta.enumeration, never None for the
records kept by the truthiness filter). -/
def optKey : Option String → String
  | none => ""
  | some s => s

/-- Per-record body of DatabaseValidator.validate_enumeration_constraints:
an unresolved enumeration reference short-circuits to an ERROR record
without touching the store. -/
def processEnumMeta (dal : DAL) (lookup : List (String × List String))
    (m : FeedMetadata) : EnumResult :=
  let base : EnumResult :=
    { db_name := m.db_name, table_name := m.db_table, column_name := m.field_name,
      feed_name := m.feed, enumeration_name := m.enumeration, allowed_values := [],
      invalid_count := 0, validation_status := .PASS, error_message := none }
  let allowed := (dictGet? lookup (optKey m.enumeration)).getD []
  if allowed.isEmpty then
    { base with allowed_values := allowed, validation_status := .ERROR,
                error_message := some ("Enumeration " ++ optKey m.enumeration ++
                  " not found in metadata") }
  else
    match dal.check_enumeration_constraints m.db_name m.db_table m.field_name allowed with
    | .error e =>
      { base with allowed_values := allowed, validation_status := .ERROR,
                  error_message := some ("Error validating enumeration constraints: " ++ e) }
    | .ok invalid_count =>
      if 0 < invalid_count then
        { base with allowed_values := allowed, invalid_count := invalid_count,
                    validation_status := .FAIL,
                    error_message := some ("Found " ++ toString invalid_count ++
                      " values not in allowed enumeration") }
      else
        { base with allowed_values := allowed, invalid_count := invalid_count }

/-- DatabaseValidator.validate_enumeration_constraints: keep records with a
truthy enumeration reference after feed filtering; one result each. -/
def validate_enumeration_constraints (dal : DAL) (metadata : List FeedMetadata)
    (enumeration_metadata : List EnumerationMetadata)
    (selected_feeds : Option (List String)) : List EnumResult :=
  ((filterFeeds metadata selected_feeds).filter (fun m => truthyOpt m.enumeration)).map
    (processEnumMeta dal (enumLookup enumeration_metadata))

/-- Result record of validate_insert_append_logic (one per table group). -/
structure InsertAppendResult where
  db_name : String
  table_name : String
  feed_name : String
  request_type : String
  current_row_count : Int
  expected_behavior : String
  validation_status : Status
  error_message : Option String
  deriving DecidableEq, Repr

/-- Per-group body of DatabaseValidator.validate_insert_append_logic. -/
def processInsertAppendGroup (dal : DAL) (g : String × List FeedMetadata) :
    InsertAppendResult :=
  let db_name := (splitFirstDot g.1).1
  let table_name := (splitFirstDot g.1).2
  let request_type := firstRequest g.2
  let base : InsertAppendResult :=
    { db_name := db_name, table_name := table_name, feed_name := firstFeed g.2,
      request_type := request_type, current_row_count := 0, expected_behavior := "",
      validation_status := .PASS, error_message := none }
  match dal.get_row_count db_name table_name with
  | .error e =>
    { base with validation_status := .ERROR,
                error_message := some ("Error validating insert/append logic: " ++ e) }
  | .ok current_count =>
    if pyUpper request_type == "INSERT" then
      { base with current_row_count := current_count,
                  expected_behavior := "Fresh data load - table should be truncated before insert" }
    else if pyUpper request_type == "APPEND" then
      { base with current_row_count := current_count,
                  expected_behavior := "Data should be appended to existing data" }
    else
      { base with current_row_count := current_count,
                  validation_status := .ERROR,
                  error_message := some ("Unknown request type: " ++ request_type) }

/-- DatabaseValidator.validate_insert_append_logic: one result per table
group, classifying the first record's request mode. -/
def validate_insert_append_logic (dal : DAL) (metadata : List FeedMetadata)
    (selected_feeds : Option (List String)) : List InsertAppendResult :=
  (groupByTable (filterFeeds metadata selected_feeds)).map (processInsertAppendGroup dal)

/-- Result record of validate_count_checks (one per table group). -/
structure CountResult where
  db_name : String
  table_name : String
  feed_name : String
  actual_count : Int
  expected_count : Option Int
  validation_status : Status
  error_message : Option String
  deriving DecidableEq, Repr

/-- Python truthiness of the optional expected_counts dict. -/
def truthyCounts : Option (List (String × Int)) → Bool
  | none => false
  | some l => !l.isEmpty

/-- Per-group body of DatabaseValidator.validate_count_checks. -/
def processCountGroup (dal : DAL) (expected_counts : Option (List (String × Int)))
    (g : String × List FeedMetadata) : CountResult :=
  let db_name := (splitFirstDot g.1).1
  let table_name := (splitFirstDot g.1).2
  let base : CountResult :=
    { db_name := db_name, table_name := table_name, feed_name := firstFeed g.2,
      actual_count := 0, expected_count := none,
      validation_status := .PASS, error_message := none }
  match dal.get_row_count db_name table_name with
  | .error e =>
    { base with validation_status := .ERROR,
                error_message := some ("Error validating count checks: " ++ e) }
  | .ok actual_count =>
    let hit : Option Int :=
      if truthyCounts expected_counts then dictGet? (expected_counts.getD []) g.1 else none
    let r1 : CountResult :=
      match hit with
      | some expected_count =>
        if actual_count != expected_count then
          { base with actual_count := actual_count, expected_count := hit,
                      validation_status := .FAIL,
                      error_message := some ("Count mismatch: expected " ++
                        toString expected_count ++ ", got " ++ toString actual_count) }
        else
          { base with actual_count := actual_count, expected_count := hit }
      | none => { base with actual_count := actual_count }
    if actual_count == 0 then
      { r1 with validation_status := .FAIL, error_message := some "Table is empty" }
    else r1

/-- DatabaseValidator.validate_count_checks. -/
def validate_count_checks (dal : DAL) (metadata : List FeedMetadata)
    (expected_counts : Option (List (String × Int)))
    (selected_feeds : Option (List String)) : List CountResult :=
  (groupByTable (filterFeeds metadata selected_feeds)).map
    (processCountGroup dal expected_counts)

/-- Round half to even, the rounding mode of the Python builtin round. -/
def roundHalfEven (x : ℚ) : ℤ :=
  if 1/2 < x - (⌊x⌋ : ℚ) then ⌊x⌋ + 1
  else if x - (⌊x⌋ : ℚ) < 1/2 then ⌊x⌋
  else if ⌊x⌋ % 2 = 0 then ⌊x⌋ else ⌊x⌋ + 1

/-- Python round(x, 2), with the float modelled as an exact rational. -/
def round2 (q : ℚ) : ℚ := (roundHalfEven (q * 100) : ℚ) / 100

/-- One entry of the column_completeness list of a completeness result. -/
structure ColumnCompleteness where
  column_name : String
  total_rows : Int
  null_count : Int
  completeness_percentage : ℚ
  is_mandatory : Bool
  deriving DecidableEq, Repr

/-- Result record of validate_completeness_checks (one per table group). -/
structure CompletenessResult where
  db_name : String
  table_name : String
  feed_name : String
  total_rows : Int
  column_completeness : List ColumnCompleteness
  overall_completeness_score : ℚ
  validation_status : Status
  error_message : Option String
  deriving DecidableEq, Repr

/-- The per-column loop of validate_completeness_checks: the column results
(with rounded percentage) plus the list of UNROUNDED percentages that feeds
the overall mean.  A raised store exception mid-loop keeps the column
results appended so far and carries the exception message. -/
def completenessColumns (dal : DAL) (db_name table_name : String) (total_rows : Int) :
    List FeedMetadata → (List ColumnCompleteness × List ℚ) ⊕ (List ColumnCompleteness × String)
  | [] => Sum.inl ([], [])
  | m :: rest =>
    match dal.check_nullable_constraints db_name table_name m.field_name with
    | .error e => Sum.inr ([], "Error validating completeness checks: " ++ e)
    | .ok (_, null_count) =>
      let pct : ℚ := ((total_rows - null_count : Int) : ℚ) / (total_rows : ℚ) * 100
      let cc : ColumnCompleteness :=
        { column_name := m.field_name, total_rows := total_rows, null_count := null_count,
          completeness_percentage := round2 pct,
          is_mandatory := pyUpper m.mandatory == "Y" }
      match completenessColumns dal db_name table_name total_rows rest with
      | Sum.inl (ccs, pcts) => Sum.inl (cc :: ccs, pct :: pcts)
      | Sum.inr (ccs, msg) => Sum.inr (cc :: ccs, msg)

/-- Per-group body of DatabaseValidator.validate_completeness_checks: a
zero-row table short-circuits to a FAIL record before any per-column work;
otherwise the overall score is the unweighted mean of the unrounded
per-column percentages, compared unrounded against the fixed 95 threshold,
while the stored score is rounded to two decimals.  A group with no
columns would divide by zero in Python; the per-group except turns that
into an ERROR record. -/
def processCompletenessGroup (dal : DAL) (g : String × List FeedMetadata) :
    CompletenessResult :=
  let db_name := (splitFirstDot g.1).1
  let table_name := (splitFirstDot g.1).2
  let base : CompletenessResult :=
    { db_name := db_name, table_name := table_name, feed_name := firstFeed g.2,
      total_rows := 0, column_completeness := [], overall_completeness_score := 0,
      validation_status := .PASS, error_message := none }
  match dal.get_row_count db_name table_name with
  | .error e =>
    { base with validation_status := .ERROR,
                error_message := some ("Error validating completeness checks: " ++ e) }
  | .ok total_rows =>
    if total_rows == 0 then
      { base with total_rows := total_rows, validation_status := .FAIL,
                  error_message := some "Table is empty - cannot check completeness" }
    else
      match completenessColumns dal db_name table_name total_rows g.2 with
      | Sum.inr (ccs, msg) =>
        { base with total_rows := total_rows, column_completeness := ccs,
                    validation_status := .ERROR, error_message := some msg }
      | Sum.inl (ccs, pcts) =>
        if pcts.isEmpty then
          { base with total_rows := total_rows, column_completeness := ccs,
                      validation_status := .ERROR,
                      error_message :=
                        some "Error validating completeness checks: division by zero" }
        else
          let overall_score := pcts.sum / (pcts.length : ℚ)
          { base with total_rows := total_rows, column_completeness := ccs,
                      overall_completeness_score := round2 overall_score,
                      validation_status := if overall_score < 95 then .FAIL else .PASS,
                      error_message :=
                        if overall_score < 95 then
                          some ("Low completeness score: " ++ toString overall_score ++ "%")
                        else none }

/-- DatabaseValidator.validate_completeness_checks. -/
def validate_completeness_checks (dal : DAL) (metadata : List FeedMetadata)
    (selected_feeds : Option (List String)) : List CompletenessResult :=
  (groupByTable (filterFeeds metadata selected_feeds)).map (processCompletenessGroup dal)

/-- One live table of a relational store: its introspected schema and its
rows.  A row maps column names to values, None standing for SQL NULL. -/
structure DBTable where
  schema : List SchemaColumn
  rows : List (List (String × Option String))

/-- A fixed set of named stores with their tables, the state the
db_connector primitives query. -/
def Database := String → String → Option DBTable

/-- Value of a column in a row; a column absent from the row reads as NULL. -/
def getCell (row : List (String × Option String)) (col : String) : Option String :=
  match row.find? (fun p => p.1 == col) with
  | some p => p.2
  | none => none

/-- Resolve a table or fail the query, as SQL Server would. -/
def lookupTable (db : Database) (db_name table_name : String) : Except String DBTable :=
  match db db_name table_name with
  | none => Except.error ("Invalid object name " ++ table_name)
  | some t => Except.ok t

/-- Non-NULL values of a column, the multiset SQL aggregates ignore NULLs over. -/
def columnValues (t : DBTable) (col : String) : List String :=
  t.rows.filterMap (fun r => getCell r col)

/-- Integer reading of a stored value for the range comparisons
(WHERE col < bound); values or bounds that do not parse count as no rows. -/
def countCompare (t : DBTable) (col : String) (bound : Option String)
    (cmp : Int → Int → Bool) : Int :=
  match (bound.getD "").toInt? with
  | none => 0
  | some b =>
    ((columnValues t col).countP (fun v =>
      match v.toInt? with
      | some x => cmp x b
      | none => false) : Int)

/-- The db_connector primitives interpreted over a concrete store state:
each field runs the SQL of the corresponding method.
COUNT(*) is the number of rows; COUNT(DISTINCT col) is the number of
distinct non-NULL values; the nullable check returns the schema flag of the
column (None when the column is not in the schema) and the count of NULL
values; the enumeration check counts non-NULL values outside the allowed
list (SQL NOT IN is unknown on NULL). -/
def dalOfDB (db : Database) : DAL where
  get_table_schema := fun d tn => (lookupTable db d tn).map (fun t => t.schema)
  check_nullable_constraints := fun d tn col =>
    (lookupTable db d tn).map (fun t =>
      ((t.schema.find? (fun c => c.name == col)).map (fun c => c.nullable),
       (t.rows.countP (fun r => (getCell r col).isNone) : Int)))
  check_unique_constraints := fun d tn col =>
    (lookupTable db d tn).map (fun t =>
      ((t.rows.length : Int), ((columnValues t col).dedup.length : Int)))
  check_range_constraints := fun d tn col bottom top =>
    (lookupTable db d tn).map (fun t =>
      (if truthyOpt bottom then some (countCompare t col bottom (fun x b => decide (x < b))) else none,
       if truthyOpt top then some (countCompare t col top (fun x b => decide (b < x))) else none))
  check_enumeration_constraints := fun d tn col allowed =>
    (lookupTable db d tn).map (fun t =>
      ((columnValues t col).countP (fun v => !allowed.contains v) : Int))
  get_row_count := fun d tn => (lookupTable db d tn).map (fun t => (t.rows.length : Int))

/-! ### Helper lemmas -/

/-- The feed filter of an empty metadata list is empty. -/
theorem filterFeeds_nil (sel : Option (List String)) : filterFeeds [] sel = [] := by
  cases sel with
  | none => rfl
  | some feeds => simp [filterFeeds]

/-- Indexing a mapped list. -/
theorem get?_map_eq {α β : Type} (f : α → β) (l : List α) (i : ℕ) (x : α)
    (h : l.get? i = some x) : (l.map f).get? i = some (f x) := by
  rw [List.get?_eq_getElem?] at h ⊢
  rw [List.getElem?_map, h]
  rfl

/-! ### C9: empty metadata input -/

/-- C9: every validator of the engine returns an empty result list when
called with an empty metadata list, for every feed filter, enumeration
catalog, expected-count map and store oracle. -/
theorem validators_empty_on_empty_metadata (dal : DAL) (ems : List EnumerationMetadata)
    (expected_counts : Option (List (String × Int))) (sel : Option (List String)) :
    validate_data_types dal [] sel = [] ∧
    validate_nullable_constraints dal [] sel = [] ∧
    validate_unique_constraints dal [] sel = [] ∧
    validate_range_constraints dal [] sel = [] ∧
    validate_enumeration_constraints dal [] ems sel = [] ∧
    validate_insert_append_logic dal [] sel = [] ∧
    validate_count_checks dal [] expected_counts sel = [] ∧
    validate_completeness_checks dal [] sel = [] := by
  refine ⟨?_, ?_, ?_, ?_, ?_, ?_, ?_, ?_⟩ <;>
    simp [validate_data_types, validate_nullable_constraints, validate_unique_constraints,
          validate_range_constraints, validate_enumeration_constraints,
          validate_insert_append_logic, validate_count_checks, validate_completeness_checks,
          filterFeeds_nil, groupByTable]

/-! ### C8: the type-compatibility predicate -/

/-- The spec's reading of type compatibility: some bucket of the fixed set
contains both type strings, or the raw strings are equal. -/
def specTypeCompatible (actual_type expected_type : String) : Prop :=
  (∃ p ∈ type_mappings,
    matchesBucket actual_type p.2 = true ∧ matchesBucket expected_type p.2 = true)
  ∨ actual_type = expected_type

/-- C8: db_connector._compare_data_types returns true exactly when the two
type strings share a bucket of the fixed table or are equal. -/
theorem compare_data_types_iff_spec (actual_type expected_type : String) :
    compare_data_types actual_type expected_type = true ↔
      specTypeCompatible actual_type expected_type := by
  unfold compare_data_types specTypeCompatible
  rcases h : type_mappings.any
      (fun p => matchesBucket actual_type p.2 && matchesBucket expected_type p.2) with _ | _
  · simp only [h, Bool.false_eq_true, if_false, beq_iff_eq]
    constructor
    · intro he
      exact Or.inr he
    · intro hs
      cases hs with
      | inl hex =>
        exfalso
        obtain ⟨p, hp, h1, h2⟩ := hex
        have hany : type_mappings.any
            (fun p => matchesBucket actual_type p.2 && matchesBucket expected_type p.2) = true :=
          List.any_eq_true.mpr ⟨p, hp, by simp [h1, h2]⟩
        rw [h] at hany
        exact Bool.false_ne_true hany
      | inr he => exact he
  · simp only [h, if_true, true_iff]
    left
    obtain ⟨p, hp, hb⟩ := List.any_eq_true.mp h
    have hb2 := (Bool.and_eq_true _ _).mp hb
    exact ⟨p, hp, hb2.1, hb2.2⟩

/-! ### C10: zero-row table short-circuit in the completeness validator -/

/-- C10: a table group whose row count comes back 0 yields exactly the FAIL
record with the fixed emptiness message and an untouched (empty)
column_completeness list; the per-column division loop is never entered. -/
theorem completeness_empty_table_short_circuit (dal : DAL) (metadata : List FeedMetadata)
    (sel : Option (List String)) (i : ℕ) (g : String × List FeedMetadata)
    (hg : (groupByTable (filterFeeds metadata sel)).get? i = some g)
    (hrc : dal.get_row_count (splitFirstDot g.1).1 (splitFirstDot g.1).2 = Except.ok 0) :
    (validate_completeness_checks dal metadata sel).get? i = some
      { db_name := (splitFirstDot g.1).1, table_name := (splitFirstDot g.1).2,
        feed_name := firstFeed g.2, total_rows := 0, column_completeness := [],
        overall_completeness_score := 0, validation_status := Status.FAIL,
        error_message := some "Table is empty - cannot check completeness" } := by
  have h1 : (validate_completeness_checks dal metadata sel).get? i
      = some (processCompletenessGroup dal g) :=
    get?_map_eq _ _ _ _ hg
  rw [h1]
  simp [processCompletenessGroup, hrc]

/-! ### C6: unresolved enumeration references -/

/-- An unresolved enumeration reference produces the fixed ERROR record,
independently of the store oracle. -/
theorem processEnumMeta_unresolved (dal : DAL) (lkp : List (String × List String))
    (m : FeedMetadata)
    (hempty : (dictGet? lkp (optKey m.enumeration)).getD [] = []) :
    processEnumMeta dal lkp m =
      { db_name := m.db_name, table_name := m.db_table, column_name := m.field_name,
        feed_name := m.feed, enumeration_name := m.enumeration, allowed_values := [],
        invalid_count := 0, validation_status := .ERROR,
        error_message := some ("Enumeration " ++ optKey m.enumeration ++
          " not found in metadata") } := by
  simp [processEnumMeta, hempty]

/-- C6: a record whose enumeration reference resolves to zero allowed
values yields an ERROR result (never PASS or FAIL) with no live
invalid_count, and the store oracle is never consulted for it: the result
is the same for every oracle. -/
theorem enumeration_unresolved_yields_error (dal dal2 : DAL) (metadata : List FeedMetadata)
    (ems : List EnumerationMetadata) (sel : Option (List String)) (i : ℕ) (m : FeedMetadata)
    (hm : ((filterFeeds metadata sel).filter (fun x => truthyOpt x.enumeration)).get? i = some m)
    (hempty : (dictGet? (enumLookup ems) (optKey m.enumeration)).getD [] = []) :
    ∃ r, (validate_enumeration_constraints dal metadata ems sel).get? i = some r ∧
      r.validation_status = Status.ERROR ∧
      r.invalid_count = 0 ∧
      r.allowed_values = [] ∧
      (validate_enumeration_constraints dal metadata ems sel).get? i =
        (validate_enumeration_constraints dal2 metadata ems sel).get? i := by
  have h1 : (validate_enumeration_constraints dal metadata ems sel).get? i
      = some (processEnumMeta dal (enumLookup ems) m) :=
    get?_map_eq (processEnumMeta dal (enumLookup ems)) _ i m hm
  have h2 : (validate_enumeration_constraints dal2 metadata ems sel).get? i
      = some (processEnumMeta dal2 (enumLookup ems) m) :=
    get?_map_eq (processEnumMeta dal2 (enumLookup ems)) _ i m hm
  refine ⟨processEnumMeta dal (enumLookup ems) m, h1, ?_, ?_, ?_, ?_⟩
  · rw [processEnumMeta_unresolved dal _ m hempty]
  · rw [processEnumMeta_unresolved dal _ m hempty]
  · rw [processEnumMeta_unresolved dal _ m hempty]
  · rw [h1, h2, processEnumMeta_unresolved dal _ m hempty,
        processEnumMeta_unresolved dal2 _ m hempty]

/-- Concrete metadata record builder used by the concrete instances below. -/
def mkMeta (field db table nullableFlag mandatoryFlag uniqueFlag : String)
    (enum : Option String) : FeedMetadata :=
  { modules := "M1", feed := "FEED1", feed_list := ["FEED1"], field_name := field,
    db_name := db, db_table := table, data_type := "INT", nullable := nullableFlag,
    request := "Insert", defaultVal := none, enumeration := enum,
    range_bottom := none, range_top := none, mandatory := mandatoryFlag,
    unique := uniqueFlag }

/-- A store oracle whose probes all succeed benignly. -/
def dalBenign : DAL where
  get_table_schema := fun _ _ => .ok []
  check_nullable_constraints := fun _ _ _ => .ok (some true, 0)
  check_unique_constraints := fun _ _ _ => .ok (0, 0)
  check_range_constraints := fun _ _ _ _ _ => .ok (none, none)
  check_enumeration_constraints := fun _ _ _ _ => .ok 0
  get_row_count := fun _ _ => .ok 1

/-- A store oracle that reports seven invalid enumeration values, used to
show the unresolved-reference result does not depend on the oracle. -/
def dalSeven : DAL where
  get_table_schema := fun _ _ => .ok []
  check_nullable_constraints := fun _ _ _ => .ok (some true, 0)
  check_unique_constraints := fun _ _ _ => .ok (0, 0)
  check_range_constraints := fun _ _ _ _ _ => .ok (none, none)
  check_enumeration_constraints := fun _ _ _ _ => .ok 7
  get_row_count := fun _ _ => .ok 1

/-- Witness for C6 at a concrete unresolvable reference "X" with an empty
enumeration catalog. -/
theorem enumeration_unresolved_yields_error_witness :
    ∃ r, (validate_enumeration_constraints dalBenign
        [mkMeta "c" "server1" "t" "Y" "N" "N" (some "X")] [] none).get? 0 = some r ∧
      r.validation_status = Status.ERROR ∧
      r.invalid_count = 0 ∧
      r.allowed_values = [] ∧
      (validate_enumeration_constraints dalBenign
        [mkMeta "c" "server1" "t" "Y" "N" "N" (some "X")] [] none).get? 0 =
      (validate_enumeration_constraints dalSeven
        [mkMeta "c" "server1" "t" "Y" "N" "N" (some "X")] [] none).get? 0 :=
  enumeration_unresolved_yields_error dalBenign dalSeven
    [mkMeta "c" "server1" "t" "Y" "N" "N" (some "X")] [] none 0
    (mkMeta "c" "server1" "t" "Y" "N" "N" (some "X")) (by decide) (by decide)

/-! ### C5: the unique validator's duplicate count -/

/-- COUNT(DISTINCT col) never exceeds COUNT(*). -/
theorem distinct_le_total (t : DBTable) (col : String) :
    (columnValues t col).dedup.length ≤ t.rows.length :=
  le_trans (List.Sublist.length_le (List.dedup_sublist _)) (List.length_filterMap_le _ _)

/-- C5: every unique-constraint result satisfies
duplicate_count = total_count - distinct_count, the difference is
non-negative over a relational store state, and FAIL holds exactly when
there are duplicates, equivalently when total and distinct counts differ. -/
theorem unique_duplicate_count_correct (db : Database) (metadata : List FeedMetadata)
    (sel : Option (List String)) (r : UniqueResult)
    (hr : r ∈ validate_unique_constraints (dalOfDB db) metadata sel) :
    r.duplicate_count = r.total_count - r.distinct_count ∧
    0 ≤ r.duplicate_count ∧
    (r.validation_status = Status.FAIL ↔ 0 < r.duplicate_count) ∧
    (r.validation_status = Status.FAIL ↔ r.total_count ≠ r.distinct_count) := by
  unfold validate_unique_constraints at hr
  obtain ⟨m, hm, rfl⟩ := List.mem_map.mp hr
  unfold processUniqueMeta
  cases hdb : db m.db_name m.db_table with
  | none => simp [dalOfDB, lookupTable, hdb, Except.map]
  | some t =>
    have hle : ((columnValues t m.field_name).dedup.length : Int) ≤ (t.rows.length : Int) := by
      exact_mod_cast distinct_le_total t m.field_name
    by_cases heq : (t.rows.length : Int) = ((columnValues t m.field_name).dedup.length : Int)
    · simp [dalOfDB, lookupTable, hdb, Except.map, heq]
    · simp [dalOfDB, lookupTable, hdb, Except.map, heq]
      omega

/-- A concrete store with one duplicated id value out of three rows. -/
def dbDup : Database := fun d tn =>
  if d == "server1" && tn == "t" then
    some { schema := [{ name := "id", colType := "INT", nullable := false }],
           rows := [[("id", some "1")], [("id", some "1")], [("id", some "2")]] }
  else none

/-- Witness for C5 on the concrete duplicated store. -/
theorem unique_duplicate_count_correct_witness :
    (processUniqueMeta (dalOfDB dbDup) (mkMeta "id" "server1" "t" "N" "N" "Y" none)).duplicate_count
      = (processUniqueMeta (dalOfDB dbDup) (mkMeta "id" "server1" "t" "N" "N" "Y" none)).total_count
        - (processUniqueMeta (dalOfDB dbDup)
            (mkMeta "id" "server1" "t" "N" "N" "Y" none)).distinct_count ∧
    0 ≤ (processUniqueMeta (dalOfDB dbDup)
          (mkMeta "id" "server1" "t" "N" "N" "Y" none)).duplicate_count ∧
    ((processUniqueMeta (dalOfDB dbDup)
        (mkMeta "id" "server1" "t" "N" "N" "Y" none)).validation_status = Status.FAIL ↔
      0 < (processUniqueMeta (dalOfDB dbDup)
            (mkMeta "id" "server1" "t" "N" "N" "Y" none)).duplicate_count) ∧
    ((processUniqueMeta (dalOfDB dbDup)
        (mkMeta "id" "server1" "t" "N" "N" "Y" none)).validation_status = Status.FAIL ↔
      (processUniqueMeta (dalOfDB dbDup)
          (mkMeta "id" "server1" "t" "N" "N" "Y" none)).total_count ≠
        (processUniqueMeta (dalOfDB dbDup)
            (mkMeta "id" "server1" "t" "N" "N" "Y" none)).distinct_count) :=
  unique_duplicate_count_correct dbDup [mkMeta "id" "server1" "t" "N" "N" "Y" none] none _
    (by decide)

/-! ### C4: the nullable validator on mandatory columns -/

/-- A store oracle whose nullable probe reports a non-nullable column with
zero NULL values. -/
def dalFlagMismatch : DAL where
  get_table_schema := fun _ _ => .ok []
  check_nullable_constraints := fun _ _ _ => .ok (some false, 0)
  check_unique_constraints := fun _ _ _ => .ok (0, 0)
  check_range_constraints := fun _ _ _ _ _ => .ok (none, none)
  check_enumeration_constraints := fun _ _ _ _ => .ok 0
  get_row_count := fun _ _ => .ok 1

/-- Counterexample to C4: a mandatory='Y' record whose column has zero NULL
values still FAILs, because the validator also compares the actual schema
nullable flag against the declared one (here declared Y, actual False). -/
theorem nullable_fail_despite_zero_nulls :
    ((validate_nullable_constraints dalFlagMismatch
        [mkMeta "c" "server1" "t" "Y" "Y" "N" none] none).map
      (fun r => (r.validation_status, r.null_count, r.expected_mandatory)))
      = [(Status.FAIL, 0, "Y")] := by decide

/-- Field-level description of the per-record nullable check on a
successful store probe. -/
theorem processNullableMeta_ok (dal : DAL) (m : FeedMetadata) (an : Option Bool) (nc : Int)
    (hc : dal.check_nullable_constraints m.db_name m.db_table m.field_name
      = Except.ok (an, nc)) :
    (processNullableMeta dal m).validation_status =
      (if (pyUpper m.mandatory == "Y" && decide (0 < nc))
          || !(an == some (pyUpper m.nullable == "Y"))
       then Status.FAIL else Status.PASS) ∧
    (processNullableMeta dal m).null_count = nc ∧
    (processNullableMeta dal m).actual_nullable = an ∧
    (processNullableMeta dal m).expected_mandatory = m.mandatory ∧
    (processNullableMeta dal m).expected_nullable = m.nullable := by
  unfold processNullableMeta
  rw [hc]
  by_cases hcond : ((pyUpper m.mandatory == "Y" && decide (0 < nc))
      || !(an == some (pyUpper m.nullable == "Y"))) = true
  · simp only [hcond, if_true]
    simp
  · simp only [Bool.not_eq_true] at hcond
    simp only [hcond, Bool.false_eq_true, if_false]
    simp

/-- C4 as the code implements it: for a mandatory='Y' record whose probe
succeeded, the result FAILs iff the column has NULL values OR the actual
schema nullable flag disagrees with the declared flag. -/
theorem nullable_mandatory_fail_characterization (dal : DAL) (metadata : List FeedMetadata)
    (sel : Option (List String)) (r : NullableResult)
    (hr : r ∈ validate_nullable_constraints dal metadata sel)
    (hok : r.validation_status ≠ Status.ERROR)
    (hmand : pyUpper r.expected_mandatory = "Y") :
    r.validation_status = Status.FAIL ↔
      (0 < r.null_count ∨ r.actual_nullable ≠ some (pyUpper r.expected_nullable == "Y")) := by
  unfold validate_nullable_constraints at hr
  obtain ⟨m, hm, rfl⟩ := List.mem_map.mp hr
  cases hc : dal.check_nullable_constraints m.db_name m.db_table m.field_name with
  | error e =>
    exfalso
    apply hok
    unfold processNullableMeta
    rw [hc]
  | ok p =>
    obtain ⟨an, nc⟩ := p
    obtain ⟨hst, hnc, han, hma, hnu⟩ := processNullableMeta_ok dal m an nc hc
    rw [hst, hnc, han, hnu]
    rw [hma] at hmand
    have hmY : (pyUpper m.mandatory == "Y") = true := by
      simpa using hmand
    rw [hmY, Bool.true_and]
    by_cases h1 : 0 < nc
    · simp [h1]
    · have : decide (0 < nc) = false := by simpa using h1
      rw [this, Bool.false_or]
      by_cases h2 : an = some (pyUpper m.nullable == "Y")
      · simp [h2]
        omega
      · simp [h2]

/-- A store oracle whose nullable probe reports one NULL value in a
nullable column. -/
def dalOneNull : DAL where
  get_table_schema := fun _ _ => .ok []
  check_nullable_constraints := fun _ _ _ => .ok (some true, 1)
  check_unique_constraints := fun _ _ _ => .ok (0, 0)
  check_range_constraints := fun _ _ _ _ _ => .ok (none, none)
  check_enumeration_constraints := fun _ _ _ _ => .ok 0
  get_row_count := fun _ _ => .ok 1

/-- Witness for the amended C4 at a concrete mandatory record with one NULL. -/
theorem nullable_mandatory_fail_characterization_witness :
    (processNullableMeta dalOneNull (mkMeta "c" "server1" "t" "Y" "Y" "N" none)).validation_status
        = Status.FAIL ↔
      (0 < (processNullableMeta dalOneNull
            (mkMeta "c" "server1" "t" "Y" "Y" "N" none)).null_count ∨
        (processNullableMeta dalOneNull
            (mkMeta "c" "server1" "t" "Y" "Y" "N" none)).actual_nullable ≠
          some (pyUpper (processNullableMeta dalOneNull
              (mkMeta "c" "server1" "t" "Y" "Y" "N" none)).expected_nullable == "Y")) :=
  nullable_mandatory_fail_characterization dalOneNull
    [mkMeta "c" "server1" "t" "Y" "Y" "N" none] none _ (by decide) (by decide) (by decide)

/-! ### C2 and C3: completeness thresholding and rounding -/

/-- A store oracle reporting 100 rows with 4 NULLs in every column. -/
def dalFourNulls : DAL where
  get_table_schema := fun _ _ => .ok []
  check_nullable_constraints := fun _ _ _ => .ok (some true, 4)
  check_unique_constraints := fun _ _ _ => .ok (0, 0)
  check_range_constraints := fun _ _ _ _ _ => .ok (none, none)
  check_enumeration_constraints := fun _ _ _ _ => .ok 0
  get_row_count := fun _ _ => .ok 100

/-- Counterexample to C2: a table whose single mandatory column is only 96%
complete still PASSes, because the completeness validator compares only the
overall score against 95 and never enforces 100% on mandatory columns. -/
theorem completeness_passes_with_incomplete_mandatory_column :
    ((validate_completeness_checks dalFourNulls
        [mkMeta "c" "server1" "t" "N" "Y" "N" none] none).map
      (fun r => (r.validation_status,
        r.column_completeness.map (fun cc => (cc.is_mandatory, cc.completeness_percentage)))))
      = [(Status.PASS, [(true, 96)])] := by
  have h0 : groupByTable (filterFeeds [mkMeta "c" "server1" "t" "N" "Y" "N" none] none)
      = [("server1.t", [mkMeta "c" "server1" "t" "N" "Y" "N" none])] := by decide
  unfold validate_completeness_checks
  rw [h0]
  simp only [List.map_cons, List.map_nil]
  norm_num [processCompletenessGroup, completenessColumns, dalFourNulls, mkMeta, pyUpper,
    round2, roundHalfEven, firstFeed]
  decide

/-- C2 as the code implements it: for a group whose row count is positive
and whose per-column loop succeeds with at least one column, the result is
PASS iff the (unrounded) mean of the per-column completeness percentages is
at least 95, and FAIL iff it is below 95; mandatory columns play no role in
the status. -/
theorem completeness_status_ignores_mandatory (dal : DAL) (metadata : List FeedMetadata)
    (sel : Option (List String)) (i : ℕ) (g : String × List FeedMetadata)
    (total_rows : Int) (ccs : List ColumnCompleteness) (pcts : List ℚ)
    (hg : (groupByTable (filterFeeds metadata sel)).get? i = some g)
    (hrc : dal.get_row_count (splitFirstDot g.1).1 (splitFirstDot g.1).2
      = Except.ok total_rows)
    (hpos : 0 < total_rows)
    (hcols : completenessColumns dal (splitFirstDot g.1).1 (splitFirstDot g.1).2
      total_rows g.2 = Sum.inl (ccs, pcts))
    (hne : pcts ≠ []) :
    ∃ r, (validate_completeness_checks dal metadata sel).get? i = some r ∧
      (r.validation_status = Status.PASS ↔ 95 ≤ pcts.sum / (pcts.length : ℚ)) ∧
      (r.validation_status = Status.FAIL ↔ pcts.sum / (pcts.length : ℚ) < 95) := by
  refine ⟨processCompletenessGroup dal g, get?_map_eq _ _ _ _ hg, ?_⟩
  have hz : (total_rows == 0) = false := by
    simp only [beq_eq_false_iff_ne, ne_eq]
    omega
  have hie : pcts.isEmpty = false := by
    cases pcts with
    | nil => exact absurd rfl hne
    | cons a l => rfl
  unfold processCompletenessGroup
  simp only [hrc, hz, hcols, hie, Bool.false_eq_true, if_false]
  by_cases hlt : pcts.sum / (pcts.length : ℚ) < 95
  · simp [hlt]
  · simp [hlt]
    exact not_lt.mp hlt

/-- Witness for the amended C2 on a fully complete single-column table. -/
theorem completeness_status_ignores_mandatory_witness :
    ∃ r, (validate_completeness_checks dalBenign
        [mkMeta "c" "server1" "t" "N" "Y" "N" none] none).get? 0 = some r ∧
      (r.validation_status = Status.PASS ↔
        95 ≤ ([(((1 : Int) - 0 : Int) : ℚ) / ((1 : Int) : ℚ) * 100] : List ℚ).sum /
          (([(((1 : Int) - 0 : Int) : ℚ) / ((1 : Int) : ℚ) * 100] : List ℚ).length : ℚ)) ∧
      (r.validation_status = Status.FAIL ↔
        ([(((1 : Int) - 0 : Int) : ℚ) / ((1 : Int) : ℚ) * 100] : List ℚ).sum /
          (([(((1 : Int) - 0 : Int) : ℚ) / ((1 : Int) : ℚ) * 100] : List ℚ).length : ℚ) < 95) :=
  completeness_status_ignores_mandatory dalBenign
    [mkMeta "c" "server1" "t" "N" "Y" "N" none] none 0
    ("server1.t", [mkMeta "c" "server1" "t" "N" "Y" "N" none]) 1
    [{ column_name := "c", total_rows := 1, null_count := 0,
       completeness_percentage := round2 ((((1 : Int) - 0 : Int) : ℚ) / ((1 : Int) : ℚ) * 100),
       is_mandatory := true }]
    [(((1 : Int) - 0 : Int) : ℚ) / ((1 : Int) : ℚ) * 100]
    (by decide) rfl (by decide) rfl (by simp)

/-- The per-column loop stores the rounded percentage in each column
record while collecting the unrounded percentages for the mean. -/
theorem completenessColumns_rounds (dal : DAL) (db_name table_name : String)
    (total_rows : Int) (ms : List FeedMetadata) (ccs : List ColumnCompleteness)
    (pcts : List ℚ)
    (h : completenessColumns dal db_name table_name total_rows ms = Sum.inl (ccs, pcts)) :
    ccs.map (fun cc => cc.completeness_percentage) = pcts.map round2 := by
  induction ms generalizing ccs pcts with
  | nil =>
    unfold completenessColumns at h
    cases h
    rfl
  | cons m rest ih =>
    unfold completenessColumns at h
    cases hc : dal.check_nullable_constraints db_name table_name m.field_name with
    | error e =>
      rw [hc] at h
      exact absurd h (by simp)
    | ok p =>
      obtain ⟨an, nc⟩ := p
      rw [hc] at h
      cases hrec : completenessColumns dal db_name table_name total_rows rest with
      | inl q =>
        obtain ⟨ccs1, pcts1⟩ := q
        rw [hrec] at h
        cases h
        simp [ih ccs1 pcts1 hrec]
      | inr q =>
        obtain ⟨ccs1, msg1⟩ := q
        rw [hrec] at h
        exact absurd h (by simp)

/-- A store oracle reporting 100000 rows with 5004 NULLs, putting the true
completeness at 94.996% while its two-decimal rounding is 95.00%. -/
def dalNearThreshold : DAL where
  get_table_schema := fun _ _ => .ok []
  check_nullable_constraints := fun _ _ _ => .ok (some true, 5004)
  check_unique_constraints := fun _ _ _ => .ok (0, 0)
  check_range_constraints := fun _ _ _ _ _ => .ok (none, none)
  check_enumeration_constraints := fun _ _ _ _ => .ok 0
  get_row_count := fun _ _ => .ok 100000

/-- Counterexample to C3: the stored overall_completeness_score rounds to
exactly 95 (which is not below the threshold), yet the status is FAIL,
because the threshold comparison uses the UNROUNDED score 94.996. -/
theorem completeness_compares_unrounded_score :
    ((validate_completeness_checks dalNearThreshold
        [mkMeta "c" "server1" "t" "N" "N" "N" none] none).map
      (fun r => (r.validation_status, r.overall_completeness_score)))
      = [(Status.FAIL, 95)] := by
  have h0 : groupByTable (filterFeeds [mkMeta "c" "server1" "t" "N" "N" "N" none] none)
      = [("server1.t", [mkMeta "c" "server1" "t" "N" "N" "N" none])] := by decide
  unfold validate_completeness_checks
  rw [h0]
  simp only [List.map_cons, List.map_nil]
  norm_num [processCompletenessGroup, completenessColumns, dalNearThreshold, mkMeta,
    pyUpper, round2, roundHalfEven, firstFeed]

/-- C3 as the code implements it: on a successful non-empty group the
stored per-column percentages and the stored overall score are the
two-decimal roundings, but the PASS/FAIL decision compares the unrounded
overall mean against 95 (and the per-column percentages are never compared
against the threshold at all). -/
theorem completeness_rounding_semantics (dal : DAL) (metadata : List FeedMetadata)
    (sel : Option (List String)) (i : ℕ) (g : String × List FeedMetadata)
    (total_rows : Int) (ccs : List ColumnCompleteness) (pcts : List ℚ)
    (hg : (groupByTable (filterFeeds metadata sel)).get? i = some g)
    (hrc : dal.get_row_count (splitFirstDot g.1).1 (splitFirstDot g.1).2
      = Except.ok total_rows)
    (hpos : 0 < total_rows)
    (hcols : completenessColumns dal (splitFirstDot g.1).1 (splitFirstDot g.1).2
      total_rows g.2 = Sum.inl (ccs, pcts))
    (hne : pcts ≠ []) :
    ∃ r, (validate_completeness_checks dal metadata sel).get? i = some r ∧
      r.column_completeness = ccs ∧
      (ccs.map fun cc => cc.completeness_percentage) = pcts.map round2 ∧
      r.overall_completeness_score = round2 (pcts.sum / (pcts.length : ℚ)) ∧
      r.validation_status =
        (if pcts.sum / (pcts.length : ℚ) < 95 then Status.FAIL else Status.PASS) := by
  refine ⟨processCompletenessGroup dal g, get?_map_eq _ _ _ _ hg, ?_,
    completenessColumns_rounds dal _ _ total_rows g.2 ccs pcts hcols, ?_, ?_⟩ <;>
  · have hz : (total_rows == 0) = false := by
      simp only [beq_eq_false_iff_ne, ne_eq]
      omega
    have hie : pcts.isEmpty = false := by
      cases pcts with
      | nil => exact absurd rfl hne
      | cons a l => rfl
    unfold processCompletenessGroup
    simp only [hrc, hz, hcols, hie, Bool.false_eq_true, if_false]

/-- Witness for the amended C3 on a fully complete single-column table. -/
theorem completeness_rounding_semantics_witness :
    ∃ r, (validate_completeness_checks dalBenign
        [mkMeta "d" "server1" "t" "N" "N" "N" none] none).get? 0 = some r ∧
      r.column_completeness =
        [{ column_name := "d", total_rows := 1, null_count := 0,
           completeness_percentage :=
             round2 ((((1 : Int) - 0 : Int) : ℚ) / ((1 : Int) : ℚ) * 100),
           is_mandatory := false }] ∧
      (([{ column_name := "d", total_rows := 1, null_count := 0,
           completeness_percentage :=
             round2 ((((1 : Int) - 0 : Int) : ℚ) / ((1 : Int) : ℚ) * 100),
           is_mandatory := false }] : List ColumnCompleteness).map
        fun cc => cc.completeness_percentage) =
        ([(((1 : Int) - 0 : Int) : ℚ) / ((1 : Int) : ℚ) * 100] : List ℚ).map round2 ∧
      r.overall_completeness_score =
        round2 (([(((1 : Int) - 0 : Int) : ℚ) / ((1 : Int) : ℚ) * 100] : List ℚ).sum /
          (([(((1 : Int) - 0 : Int) : ℚ) / ((1 : Int) : ℚ) * 100] : List ℚ).length : ℚ)) ∧
      r.validation_status =
        (if ([(((1 : Int) - 0 : Int) : ℚ) / ((1 : Int) : ℚ) * 100] : List ℚ).sum /
            (([(((1 : Int) - 0 : Int) : ℚ) / ((1 : Int) : ℚ) * 100] : List ℚ).length : ℚ) < 95
         then Status.FAIL else Status.PASS) :=
  completeness_rounding_semantics dalBenign
    [mkMeta "d" "server1" "t" "N" "N" "N" none] none 0
    ("server1.t", [mkMeta "d" "server1" "t" "N" "N" "N" none]) 1
    [{ column_name := "d", total_rows := 1, null_count := 0,
       completeness_percentage :=
         round2 ((((1 : Int) - 0 : Int) : ℚ) / ((1 : Int) : ℚ) * 100),
       is_mandatory := false }]
    [(((1 : Int) - 0 : Int) : ℚ) / ((1 : Int) : ℚ) * 100]
    (by decide) rfl (by decide) rfl (by simp)

/-! ### C1: the data-type validator -/

/-- Inserting a fresh key into a dict appends it at the end. -/
theorem dictInsert_notMem {α : Type} (k : String) (v : α) :
    ∀ d : List (String × α), (∀ p ∈ d, p.1 ≠ k) → dictInsert k v d = d ++ [(k, v)]
  | [], _ => rfl
  | (k2, v2) :: rest, h => by
    unfold dictInsert
    have hne : (k2 == k) = false := by
      simp only [beq_eq_false_iff_ne, ne_eq]
      exact h (k2, v2) (by simp)
    rw [hne]
    simp only [Bool.false_eq_true, if_false]
    rw [dictInsert_notMem k v rest (fun p hp => h p (List.mem_cons_of_mem _ hp))]
    rfl

/-- Over actual-schema columns with pairwise distinct names, the verdict
dict built by the connector is just the list of per-column verdicts. -/
theorem typeResultsDict_eq_map (expected_schema : List (String × String)) :
    ∀ (cols : List SchemaColumn) (acc : List (String × Bool)),
      (∀ c ∈ cols, ∀ p ∈ acc, p.1 ≠ c.name) →
      (cols.map SchemaColumn.name).Nodup →
      cols.foldl (fun d c => dictInsert c.name (typeDecisionFor expected_schema c) d) acc
        = acc ++ cols.map (fun c => (c.name, typeDecisionFor expected_schema c))
  | [], acc, _, _ => by simp
  | c :: cols, acc, hacc, hnd => by
    rw [List.foldl_cons]
    rw [dictInsert_notMem c.name (typeDecisionFor expected_schema c) acc
      (fun p hp => hacc c (by simp) p hp)]
    rw [List.map_cons, List.Nodup] at hnd
    have hnd2 := List.Pairwise.of_cons hnd
    have hhead := List.pairwise_cons.mp hnd
    rw [typeResultsDict_eq_map expected_schema cols (acc ++ [(c.name, typeDecisionFor expected_schema c)])
      (fun c2 hc2 p hp => by
        rcases List.mem_append.mp hp with hin | hin
        · exact hacc c2 (List.mem_cons_of_mem _ hc2) p hin
        · rcases List.mem_singleton.mp hin with rfl
          exact hhead.1 c2.name (List.mem_map_of_mem _ hc2)) hnd2]
    simp

/-- A store oracle whose actual schema has the single INT column A. -/
def dalOneCol : DAL where
  get_table_schema := fun _ _ =>
    .ok [{ name := "A", colType := "INT", nullable := true }]
  check_nullable_constraints := fun _ _ _ => .ok (some true, 0)
  check_unique_constraints := fun _ _ _ => .ok (0, 0)
  check_range_constraints := fun _ _ _ _ _ => .ok (none, none)
  check_enumeration_constraints := fun _ _ _ _ => .ok 0
  get_row_count := fun _ _ => .ok 1

/-- The schema list carried by a successful introspection result. -/
def schemaOrNil (r : Except String (List SchemaColumn)) : List SchemaColumn :=
  match r with
  | Except.ok cols => cols
  | Except.error _ => []

/-- Counterexample to C1: a group declaring columns A and C against a table
whose actual schema only has column A yields PASS, because the connector
iterates actual-schema columns and silently skips declared columns missing
from the schema. -/
theorem data_type_passes_with_missing_declared_column :
    ((validate_data_types dalOneCol
        [mkMeta "A" "server1" "t" "Y" "N" "N" none,
         mkMeta "C" "server1" "t" "Y" "N" "N" none] none).map
      (fun r => r.validation_status) = [Status.PASS]) ∧
    ("C" ∈ [mkMeta "A" "server1" "t" "Y" "N" "N" none,
            mkMeta "C" "server1" "t" "Y" "N" "N" none].map (fun m => m.field_name)) ∧
    (∀ c ∈ schemaOrNil (dalOneCol.get_table_schema "server1" "t"),
      SchemaColumn.name c ≠ "C") ∧
    schemaOrNil (dalOneCol.get_table_schema "server1" "t")
      = [{ name := "A", colType := "INT", nullable := true }] := by decide

/-- C1 as the code implements it: the group result FAILs iff some column
of the ACTUAL schema is undeclared or type-incompatible, PASSes otherwise,
and each failing actual column is listed; declared columns absent from the
actual schema are ignored. -/
theorem data_type_status_characterization (dal : DAL) (metadata : List FeedMetadata)
    (sel : Option (List String)) (i : ℕ) (g : String × List FeedMetadata)
    (cols : List SchemaColumn)
    (hg : (groupByTable (filterFeeds metadata sel)).get? i = some g)
    (hschema : dal.get_table_schema (splitFirstDot g.1).1 (splitFirstDot g.1).2
      = Except.ok cols)
    (hnd : (cols.map SchemaColumn.name).Nodup) :
    ∃ r, (validate_data_types dal metadata sel).get? i = some r ∧
      (r.validation_status = Status.FAIL ↔
        ∃ c ∈ cols, typeDecisionFor (expectedSchemaOf g.2) c = false) ∧
      (r.validation_status = Status.PASS ↔
        ∀ c ∈ cols, typeDecisionFor (expectedSchemaOf g.2) c = true) ∧
      (∀ c ∈ cols, typeDecisionFor (expectedSchemaOf g.2) c = false →
        ∃ cv ∈ r.column_validations,
          cv.column_name = c.name ∧ cv.validation_passed = false) := by
  have hdict : connectorValidateDataTypes dal (splitFirstDot g.1).1 (splitFirstDot g.1).2
      (expectedSchemaOf g.2)
      = Except.ok (cols.map (fun c => (c.name, typeDecisionFor (expectedSchemaOf g.2) c))) := by
    unfold connectorValidateDataTypes
    rw [hschema]
    simp only [typeResultsDict_eq_map (expectedSchemaOf g.2) cols [] (by simp) hnd,
      List.nil_append]
  have key : (((cols.map (fun c => (c.name, typeDecisionFor (expectedSchemaOf g.2) c))).any
        (fun p => !p.2)) = true)
      ↔ ∃ c ∈ cols, typeDecisionFor (expectedSchemaOf g.2) c = false := by
    constructor
    · intro h
      obtain ⟨p, hp, hb⟩ := List.any_eq_true.mp h
      obtain ⟨c, hc, rfl⟩ := List.mem_map.mp hp
      exact ⟨c, hc, by simpa using hb⟩
    · intro hex
      obtain ⟨c, hc, hf⟩ := hex
      exact List.any_eq_true.mpr
        ⟨(c.name, typeDecisionFor (expectedSchemaOf g.2) c),
          List.mem_map_of_mem _ hc, by simp [hf]⟩
  have hstatus : (processDataTypeGroup dal g).validation_status
      = (if ((cols.map (fun c => (c.name, typeDecisionFor (expectedSchemaOf g.2) c))).any
            (fun p => !p.2))
         then Status.FAIL else Status.PASS) := by
    unfold processDataTypeGroup
    simp only [hdict]
  have hcvs : (processDataTypeGroup dal g).column_validations
      = (cols.map (fun c => (c.name, typeDecisionFor (expectedSchemaOf g.2) c))).map
          (mkColumnValidation g.2) := by
    unfold processDataTypeGroup
    simp only [hdict]
  refine ⟨processDataTypeGroup dal g, get?_map_eq _ _ _ _ hg, ?_, ?_, ?_⟩
  · rw [hstatus]
    by_cases hb : ((cols.map (fun c => (c.name, typeDecisionFor (expectedSchemaOf g.2) c))).any
        (fun p => !p.2)) = true
    · rw [if_pos hb]
      constructor
      · intro _
        exact key.mp hb
      · intro _
        rfl
    · rw [if_neg hb]
      constructor
      · intro hcontr
        exact absurd hcontr (by simp)
      · intro hex
        exact absurd (key.mpr hex) hb
  · rw [hstatus]
    by_cases hb : ((cols.map (fun c => (c.name, typeDecisionFor (expectedSchemaOf g.2) c))).any
        (fun p => !p.2)) = true
    · rw [if_pos hb]
      constructor
      · intro hcontr
        exact absurd hcontr (by simp)
      · intro hall
        obtain ⟨c, hc, hf⟩ := key.mp hb
        rw [hall c hc] at hf
        exact Bool.noConfusion hf
    · rw [if_neg hb]
      constructor
      · intro _ c hc
        cases hval : typeDecisionFor (expectedSchemaOf g.2) c with
        | true => rfl
        | false => exact absurd (key.mpr ⟨c, hc, hval⟩) hb
      · intro _
        rfl
  · intro c hc hfail
    have hmem2 : mkColumnValidation g.2 (c.name, typeDecisionFor (expectedSchemaOf g.2) c)
        ∈ (processDataTypeGroup dal g).column_validations := by
      rw [hcvs]
      exact List.mem_map_of_mem _ (List.mem_map_of_mem _ hc)
    exact ⟨_, hmem2, rfl, hfail⟩


/-- Witness for the amended C1 at the concrete one-column schema. -/
theorem data_type_status_characterization_witness :
    ∃ r, (validate_data_types dalOneCol
        [mkMeta "A" "server1" "t" "Y" "N" "N" none] none).get? 0 = some r ∧
      (r.validation_status = Status.FAIL ↔
        ∃ c ∈ [({ name := "A", colType := "INT", nullable := true } : SchemaColumn)],
          typeDecisionFor
            (expectedSchemaOf [mkMeta "A" "server1" "t" "Y" "N" "N" none]) c = false) ∧
      (r.validation_status = Status.PASS ↔
        ∀ c ∈ [({ name := "A", colType := "INT", nullable := true } : SchemaColumn)],
          typeDecisionFor
            (expectedSchemaOf [mkMeta "A" "server1" "t" "Y" "N" "N" none]) c = true) ∧
      (∀ c ∈ [({ name := "A", colType := "INT", nullable := true } : SchemaColumn)],
        typeDecisionFor
          (expectedSchemaOf [mkMeta "A" "server1" "t" "Y" "N" "N" none]) c = false →
        ∃ cv ∈ r.column_validations,
          cv.column_name = c.name ∧ cv.validation_passed = false) :=
  data_type_status_characterization dalOneCol
    [mkMeta "A" "server1" "t" "Y" "N" "N" none] none 0
    ("server1.t", [mkMeta "A" "server1" "t" "Y" "N" "N" none])
    [{ name := "A", colType := "INT", nullable := true }]
    (by decide) rfl (by decide)

/-! ### C10 witness oracle -/

/-- A store oracle reporting an empty table. -/
def dalEmptyTable : DAL where
  get_table_schema := fun _ _ => .ok []
  check_nullable_constraints := fun _ _ _ => .ok (some true, 0)
  check_unique_constraints := fun _ _ _ => .ok (0, 0)
  check_range_constraints := fun _ _ _ _ _ => .ok (none, none)
  check_enumeration_constraints := fun _ _ _ _ => .ok 0
  get_row_count := fun _ _ => .ok 0

/-- Witness for C10 at a concrete empty table. -/
theorem completeness_empty_table_short_circuit_witness :
    (validate_completeness_checks dalEmptyTable
        [mkMeta "c" "server1" "t" "N" "N" "N" none] none).get? 0 = some
      { db_name := (splitFirstDot "server1.t").1,
        table_name := (splitFirstDot "server1.t").2,
        feed_name := firstFeed [mkMeta "c" "server1" "t" "N" "N" "N" none],
        total_rows := 0, column_completeness := [],
        overall_completeness_score := 0, validation_status := Status.FAIL,
        error_message := some "Table is empty - cannot check completeness" } :=
  completeness_empty_table_short_circuit dalEmptyTable
    [mkMeta "c" "server1" "t" "N" "N" "N" none] none 0
    ("server1.t", [mkMeta "c" "server1" "t" "N" "N" "N" none]) (by decide) rfl

/-! ### C7: error isolation -/

/-- A store oracle every probe of which raises ConnectivityError. -/
def dalConnFail : DAL where
  get_table_schema := fun _ _ => .error "ConnectivityError"
  check_nullable_constraints := fun _ _ _ => .error "ConnectivityError"
  check_unique_constraints := fun _ _ _ => .error "ConnectivityError"
  check_range_constraints := fun _ _ _ _ _ => .error "ConnectivityError"
  check_enumeration_constraints := fun _ _ _ _ => .error "ConnectivityError"
  get_row_count := fun _ _ => .error "ConnectivityError"

/-- Counterexample to C7's "exactly one ERROR record per (store, table)
group": the nullable validator is per-record, so two records of the SAME
table each yield their own ERROR record when the store fails — two ERROR
records for one group. -/
theorem nullable_two_error_records_for_one_group :
    ((validate_nullable_constraints dalConnFail
        [mkMeta "a" "server1" "t" "Y" "Y" "N" none,
         mkMeta "b" "server1" "t" "Y" "Y" "N" none] none).map
      (fun r => (r.db_name, r.table_name, r.validation_status)))
      = [("server1", "t", Status.ERROR), ("server1", "t", Status.ERROR)] := by decide

/-- C7 as the code implements it: every validator is a total function
emitting exactly one result per evaluation unit (a (store, table) group
for the table-grouped validators; a single metadata record for the
per-column validators); a store exception inside one unit yields exactly
that unit's ERROR record carrying the exception message, and every other
unit's record is still produced. -/
theorem error_isolation_per_unit (dal : DAL) (metadata : List FeedMetadata)
    (ems : List EnumerationMetadata) (expected_counts : Option (List (String × Int)))
    (sel : Option (List String)) :
    ((validate_data_types dal metadata sel).length
        = (groupByTable (filterFeeds metadata sel)).length
      ∧ ∀ i g, (groupByTable (filterFeeds metadata sel)).get? i = some g →
          (validate_data_types dal metadata sel).get? i = some (processDataTypeGroup dal g)
          ∧ ∀ e, dal.get_table_schema (splitFirstDot g.1).1 (splitFirstDot g.1).2
              = Except.error e →
            (processDataTypeGroup dal g).validation_status = Status.ERROR
            ∧ (processDataTypeGroup dal g).error_message
                = some ("Error validating data types: " ++ e))
    ∧ ((validate_nullable_constraints dal metadata sel).length
        = (filterFeeds metadata sel).length
      ∧ ∀ i m, (filterFeeds metadata sel).get? i = some m →
          (validate_nullable_constraints dal metadata sel).get? i
            = some (processNullableMeta dal m)
          ∧ ∀ e, dal.check_nullable_constraints m.db_name m.db_table m.field_name
              = Except.error e →
            (processNullableMeta dal m).validation_status = Status.ERROR
            ∧ (processNullableMeta dal m).error_message
                = some ("Error validating nullable constraints: " ++ e))
    ∧ ((validate_unique_constraints dal metadata sel).length
        = ((filterFeeds metadata sel).filter (fun m => pyUpper m.unique == "Y")).length
      ∧ ∀ i m, ((filterFeeds metadata sel).filter
            (fun m => pyUpper m.unique == "Y")).get? i = some m →
          (validate_unique_constraints dal metadata sel).get? i
            = some (processUniqueMeta dal m)
          ∧ ∀ e, dal.check_unique_constraints m.db_name m.db_table m.field_name
              = Except.error e →
            (processUniqueMeta dal m).validation_status = Status.ERROR
            ∧ (processUniqueMeta dal m).error_message
                = some ("Error validating unique constraints: " ++ e))
    ∧ ((validate_range_constraints dal metadata sel).length
        = ((filterFeeds metadata sel).filter
            (fun m => truthyOpt m.range_bottom || truthyOpt m.range_top)).length
      ∧ ∀ i m, ((filterFeeds metadata sel).filter
            (fun m => truthyOpt m.range_bottom || truthyOpt m.range_top)).get? i = some m →
          (validate_range_constraints dal metadata sel).get? i
            = some (processRangeMeta dal m)
          ∧ ∀ e, dal.check_range_constraints m.db_name m.db_table m.field_name
              m.range_bottom m.range_top = Except.error e →
            (processRangeMeta dal m).validation_status = Status.ERROR
            ∧ (processRangeMeta dal m).error_message
                = some ("Error validating range constraints: " ++ e))
    ∧ ((validate_enumeration_constraints dal metadata ems sel).length
        = ((filterFeeds metadata sel).filter (fun m => truthyOpt m.enumeration)).length
      ∧ ∀ i m, ((filterFeeds metadata sel).filter
            (fun m => truthyOpt m.enumeration)).get? i = some m →
          (validate_enumeration_constraints dal metadata ems sel).get? i
            = some (processEnumMeta dal (enumLookup ems) m)
          ∧ ∀ e, (dictGet? (enumLookup ems) (optKey m.enumeration)).getD [] ≠ [] →
              dal.check_enumeration_constraints m.db_name m.db_table m.field_name
                ((dictGet? (enumLookup ems) (optKey m.enumeration)).getD [])
                = Except.error e →
            (processEnumMeta dal (enumLookup ems) m).validation_status = Status.ERROR
            ∧ (processEnumMeta dal (enumLookup ems) m).error_message
                = some ("Error validating enumeration constraints: " ++ e))
    ∧ ((validate_insert_append_logic dal metadata sel).length
        = (groupByTable (filterFeeds metadata sel)).length
      ∧ ∀ i g, (groupByTable (filterFeeds metadata sel)).get? i = some g →
          (validate_insert_append_logic dal metadata sel).get? i
            = some (processInsertAppendGroup dal g)
          ∧ ∀ e, dal.get_row_count (splitFirstDot g.1).1 (splitFirstDot g.1).2
              = Except.error e →
            (processInsertAppendGroup dal g).validation_status = Status.ERROR
            ∧ (processInsertAppendGroup dal g).error_message
                = some ("Error validating insert/append logic: " ++ e))
    ∧ ((validate_count_checks dal metadata expected_counts sel).length
        = (groupByTable (filterFeeds metadata sel)).length
      ∧ ∀ i g, (groupByTable (filterFeeds metadata sel)).get? i = some g →
          (validate_count_checks dal metadata expected_counts sel).get? i
            = some (processCountGroup dal expected_counts g)
          ∧ ∀ e, dal.get_row_count (splitFirstDot g.1).1 (splitFirstDot g.1).2
              = Except.error e →
            (processCountGroup dal expected_counts g).validation_status = Status.ERROR
            ∧ (processCountGroup dal expected_counts g).error_message
                = some ("Error validating count checks: " ++ e))
    ∧ ((validate_completeness_checks dal metadata sel).length
        = (groupByTable (filterFeeds metadata sel)).length
      ∧ ∀ i g, (groupByTable (filterFeeds metadata sel)).get? i = some g →
          (validate_completeness_checks dal metadata sel).get? i
            = some (processCompletenessGroup dal g)
          ∧ (∀ e, dal.get_row_count (splitFirstDot g.1).1 (splitFirstDot g.1).2
              = Except.error e →
            (processCompletenessGroup dal g).validation_status = Status.ERROR
            ∧ (processCompletenessGroup dal g).error_message
                = some ("Error validating completeness checks: " ++ e))
          ∧ ∀ tr ccs msg, dal.get_row_count (splitFirstDot g.1).1 (splitFirstDot g.1).2
              = Except.ok tr → tr ≠ 0 →
              completenessColumns dal (splitFirstDot g.1).1 (splitFirstDot g.1).2 tr g.2
                = Sum.inr (ccs, msg) →
            (processCompletenessGroup dal g).validation_status = Status.ERROR
            ∧ (processCompletenessGroup dal g).error_message = some msg) := by
  refine ⟨⟨?_, ?_⟩, ⟨?_, ?_⟩, ⟨?_, ?_⟩, ⟨?_, ?_⟩, ⟨?_, ?_⟩, ⟨?_, ?_⟩, ⟨?_, ?_⟩, ⟨?_, ?_⟩⟩
  · exact List.length_map _ _
  · intro i g hg
    refine ⟨get?_map_eq _ _ _ _ hg, ?_⟩
    intro e he
    simp [processDataTypeGroup, connectorValidateDataTypes, he]
  · exact List.length_map _ _
  · intro i m hm
    refine ⟨get?_map_eq _ _ _ _ hm, ?_⟩
    intro e he
    simp [processNullableMeta, he]
  · exact List.length_map _ _
  · intro i m hm
    refine ⟨get?_map_eq _ _ _ _ hm, ?_⟩
    intro e he
    simp [processUniqueMeta, he]
  · exact List.length_map _ _
  · intro i m hm
    refine ⟨get?_map_eq _ _ _ _ hm, ?_⟩
    intro e he
    simp [processRangeMeta, he]
  · exact List.length_map _ _
  · intro i m hm
    refine ⟨get?_map_eq _ _ _ _ hm, ?_⟩
    intro e hne he
    have hie : ((dictGet? (enumLookup ems) (optKey m.enumeration)).getD []).isEmpty
        = false := by
      cases hcase : (dictGet? (enumLookup ems) (optKey m.enumeration)).getD [] with
      | nil => exact absurd hcase hne
      | cons a l => rfl
    simp [processEnumMeta, hie, he]
  · exact List.length_map _ _
  · intro i g hg
    refine ⟨get?_map_eq _ _ _ _ hg, ?_⟩
    intro e he
    simp [processInsertAppendGroup, he]
  · exact List.length_map _ _
  · intro i g hg
    refine ⟨get?_map_eq _ _ _ _ hg, ?_⟩
    intro e he
    simp [processCountGroup, he]
  · exact List.length_map _ _
  · intro i g hg
    refine ⟨get?_map_eq _ _ _ _ hg, ?_, ?_⟩
    · intro e he
      simp [processCompletenessGroup, he]
    · intro tr ccs msg htr hnz hcols
      have hz : (tr == 0) = false := by
        simp only [beq_eq_false_iff_ne, ne_eq]
        exact hnz
      simp [processCompletenessGroup, htr, hz, hcols]

/-- Witness for the amended C7: with a failing store, the data-type
validator still returns its group's record, an ERROR carrying the message. -/
theorem error_isolation_per_unit_witness :
    (validate_data_types dalConnFail
        [mkMeta "a" "server1" "t" "Y" "N" "N" none] none).get? 0
      = some (processDataTypeGroup dalConnFail
          ("server1.t", [mkMeta "a" "server1" "t" "Y" "N" "N" none]))
    ∧ (processDataTypeGroup dalConnFail
        ("server1.t", [mkMeta "a" "server1" "t" "Y" "N" "N" none])).validation_status
        = Status.ERROR
    ∧ (processDataTypeGroup dalConnFail
        ("server1.t", [mkMeta "a" "server1" "t" "Y" "N" "N" none])).error_message
        = some ("Error validating data types: " ++ "ConnectivityError") := by
  obtain ⟨⟨h1, h2⟩, -⟩ := error_isolation_per_unit dalConnFail
    [mkMeta "a" "server1" "t" "Y" "N" "N" none] [] none none
  obtain ⟨hg1, hg2⟩ := h2 0
    ("server1.t", [mkMeta "a" "server1" "t" "Y" "N" "N" none]) (by decide)
  have herr := hg2 "ConnectivityError" rfl
  exact ⟨hg1, herr.1, herr.2⟩

end MDV
